import Mathlib

/-!
# habitrack: the two migration runners and their entry points

A shallow embedding of

* `backend/internal/migration/migration.go`  (namespace `Migration`),
* `backend/cmd/migrate/main.go`              (namespace `CmdMigrate`),
* `backend/migrations/run_migrations.go`     (namespace `Migrations`).

The Go code is a thin layer over the operating system, `database/sql`, `godotenv` and
`golang-migrate`.  Every call that leaves the repository is represented by its outcome, taken
from a `World` record, so that each function of the repository becomes a total Lean function
of the world it runs in.  What the functions do themselves (which calls they make, in which
order, what they log, what they return) is translated statement by statement.
-/

namespace Habitrack

/-! ## Go values: errors and formatting -/

/-- Go `error` values, as far as this program can tell them apart.
`errNoChange` is the sentinel `migrate.ErrNoChange`, which the code compares by identity;
`external` is any error made outside the repository (driver, OS, library), identified by its
message; `wrapError` is the value `fmt.Errorf` builds for a format with a `%w` verb. -/
inductive GoError where
  | errNoChange : GoError
  | external (msg : String) : GoError
  | wrapError (msg : String) (err : GoError) : GoError
  deriving DecidableEq

/-- The method `Error()` of an error value. -/
def GoError.Error : GoError → String
  | .errNoChange => "no change"
  | .external msg => msg
  | .wrapError msg _ => msg

/-- The method `Unwrap()` as seen through `errors.Unwrap`: only a `wrapError` has a cause. -/
def GoError.Unwrap : GoError → Option GoError
  | .wrapError _ err => some err
  | _ => none

/-- Expansion of a format over string operands.  The verbs `%s`, `%v` and `%w` print the
next operand verbatim; with no operand left Go prints `%!v(MISSING)`.  Every other character
is copied. -/
def sprintfAux : List Char → List String → List Char
  | [], _ => []
  | [c], _ => [c]
  | c :: d :: rest, [] =>
      if c = '%' ∧ (d = 's' ∨ d = 'v' ∨ d = 'w') then
        '%' :: '!' :: d :: ("(MISSING)".data ++ sprintfAux rest [])
      else c :: sprintfAux (d :: rest) []
  | c :: d :: rest, a :: args =>
      if c = '%' ∧ (d = 's' ∨ d = 'v' ∨ d = 'w') then
        a.data ++ sprintfAux rest args
      else c :: sprintfAux (d :: rest) (a :: args)

/-- The function `fmt.Sprintf` on string operands (an `error` operand is passed as its
`Error()` text, which is what `%v` prints for it). -/
def Sprintf (format : String) (args : List String) : String :=
  ⟨sprintfAux format.data args⟩

/-- The call `fmt.Errorf(format, err)` for a format holding one `%w`: the message is the
expanded format and `Unwrap` gives back `err`. -/
def Errorf (format : String) (err : GoError) : GoError :=
  .wrapError (Sprintf format [err.Error]) err

/-! ## The database handle -/

/-- Calls made on a `*sql.DB` handle, in the order they are made. -/
inductive DbCall where
  | Ping : DbCall
  | Exec (query : String) : DbCall
  | Close : DbCall
  | WithInstance : DbCall
  | Up : DbCall
  deriving DecidableEq

/-- A `*sql.DB` handle: the state of the database behind it, whether `Close` has been called
on it, and the journal of calls made on it. -/
structure DB (σ : Type) where
  state : σ
  closed : Bool
  calls : List DbCall

/-- The handle `sql.Open` gives back. -/
def DB.opened {σ : Type} (s : σ) : DB σ :=
  { state := s, closed := false, calls := [] }

/-- The call `db.Ping()`; its error is supplied by the world. -/
def DB.Ping {σ : Type} (db : DB σ) : DB σ :=
  { db with calls := db.calls ++ [DbCall.Ping] }

/-- The call `db.Close()`. -/
def DB.Close {σ : Type} (db : DB σ) : DB σ :=
  { db with closed := true, calls := db.calls ++ [DbCall.Close] }

/-- The call `db.Exec(query)`: on a closed handle `database/sql` answers with an error and
does nothing; otherwise the database runs the query. -/
def DB.Exec {σ : Type} (engine : σ → String → σ × Option GoError) (db : DB σ)
    (query : String) : DB σ × Option GoError :=
  if db.closed then
    ({ db with calls := db.calls ++ [DbCall.Exec query] },
      some (.external "sql: database is closed"))
  else
    ({ state := (engine db.state query).1, closed := db.closed,
       calls := db.calls ++ [DbCall.Exec query] },
      (engine db.state query).2)

/-! ## The world outside the repository -/

/-- What one call of the library method `m.Up()` did.  The method returns only an `error`;
which migrations were applied, or which version was being applied when a statement failed,
stays inside the library. -/
inductive UpOutcome where
  | applied (first : Nat) (more : List Nat) : UpOutcome
  | noChange : UpOutcome
  | failed (version : Nat) (cause : GoError) : UpOutcome
  deriving DecidableEq

/-- The `error` that `m.Up()` returns: `nil` after applying at least one migration,
`migrate.ErrNoChange` when nothing was pending, the cause of the failure otherwise. -/
def UpOutcome.err : UpOutcome → Option GoError
  | .applied _ _ => none
  | .noChange => some .errNoChange
  | .failed _ cause => some cause

/-- Outcomes of the calls `migration.RunMigrations` makes outside the repository. -/
structure MigrateLib (σ : Type) where
  /-- Error of `postgres.WithInstance(db, &postgres.Config{})`. -/
  withInstanceErr : Option GoError
  /-- Result of `os.Getwd()`. -/
  getwd : Except GoError String
  /-- The function `filepath.Join` on two elements. -/
  join : String → String → String
  /-- Error of `migrate.NewWithDatabaseInstance(sourceURL, "postgres", driver)`. -/
  newWithDatabaseInstance : String → Option GoError
  /-- What `m.Up()` did. -/
  up : UpOutcome
  /-- What `m.Up()` did to the database. -/
  upEffect : σ → σ

/-- Everything a run of either entry point takes from outside. -/
structure World (σ : Type) where
  /-- Error of `godotenv.Load`. -/
  dotenvErr : Option GoError
  /-- The process environment as `os.LookupEnv` sees it after `godotenv.Load` ran. -/
  env : String → Option String
  /-- Result of `sql.Open("postgres", connStr)`: the database the handle talks to. -/
  sqlOpen : String → Except GoError σ
  /-- Error of `db.Ping()`. -/
  pingErr : Option GoError
  /-- How the database runs the query of one `Exec` call. -/
  engine : σ → String → σ × Option GoError
  /-- Result of `os.ReadFile`. -/
  readFile : String → Except GoError String
  /-- The migration library. -/
  lib : MigrateLib σ

/-- The function `os.Getenv`: the value of the variable, empty when it is not set. -/
def Getenv (env : String → Option String) (key : String) : String :=
  (env key).getD ""

/-- What a runner hands back: the handle as it left it, the lines it logged, its `error`. -/
structure RunResult (σ : Type) where
  db : DB σ
  log : List String
  err : Option GoError

/-- What a process did: the lines it logged, its exit status, the connection string it
passed to `sql.Open` (when it got that far) and the handle as the process left it. -/
structure Proc (σ : Type) where
  log : List String
  exitCode : Nat
  connStr : Option String
  db : Option (DB σ)

/-! ## backend/internal/migration/migration.go -/

namespace Migration

/-- The function `RunMigrations` of package `migration` (migration.go, lines 16 to 45). -/
def RunMigrations {σ : Type} (lib : MigrateLib σ) (db : DB σ) : RunResult σ :=
  let db := { db with calls := db.calls ++ [DbCall.WithInstance] }
  match lib.withInstanceErr with
  | some err => ⟨db, [], some (Errorf "could not create migration driver: %w" err)⟩
  | none =>
    match lib.getwd with
    | .error err => ⟨db, [], some (Errorf "could not get current directory: %w" err)⟩
    | .ok currentDir =>
      let migrationsPath := lib.join currentDir "migrations"
      let sourceURL := Sprintf "file://%s" [migrationsPath]
      match lib.newWithDatabaseInstance sourceURL with
      | some err => ⟨db, [], some (Errorf "could not create migration instance: %w" err)⟩
      | none =>
        let db := { db with state := lib.upEffect db.state, calls := db.calls ++ [DbCall.Up] }
        match lib.up.err with
        | some err =>
          if err ≠ GoError.errNoChange then
            ⟨db, [], some (Errorf "could not run migrations: %w" err)⟩
          else
            ⟨db, ["Database migrations completed successfully"], none⟩
        | none => ⟨db, ["Database migrations completed successfully"], none⟩

end Migration

/-! ## backend/cmd/migrate/main.go -/

namespace CmdMigrate

/-- Lines 21 to 43 of `main`: the connection string assembled from the environment. -/
def connStr (env : String → Option String) : String :=
  let dbHost := Getenv env "DB_HOST"
  let dbPort := Getenv env "DB_PORT"
  let dbUser := Getenv env "DB_USER"
  let dbPassword := Getenv env "DB_PASSWORD"
  let dbName := Getenv env "DB_NAME"
  let dbHost := if dbHost = "" then "localhost" else dbHost
  let dbPort := if dbPort = "" then "5432" else dbPort
  let dbUser := if dbUser = "" then "postgres" else dbUser
  let dbName := if dbName = "" then "habitrack" else dbName
  Sprintf "host=%s port=%s user=%s password=%s dbname=%s sslmode=disable"
    [dbHost, dbPort, dbUser, dbPassword, dbName]

/-- The function `main` of cmd/migrate.  `log.Fatalf` logs and exits with status 1 without
running deferred calls, so the deferred `db.Close()` runs only when `main` returns. -/
def main {σ : Type} (w : World σ) : Proc σ :=
  let log0 : List String :=
    match w.dotenvErr with
    | some err => [Sprintf "Warning: Error loading .env file: %v" [err.Error]]
    | none => []
  let connStr := connStr w.env
  match w.sqlOpen connStr with
  | .error err =>
    ⟨log0 ++ [Sprintf "Could not connect to database: %v" [err.Error]], 1, some connStr, none⟩
  | .ok s =>
    let db := (DB.opened s).Ping
    match w.pingErr with
    | some err =>
      ⟨log0 ++ [Sprintf "Could not ping database: %v" [err.Error]], 1, some connStr, some db⟩
    | none =>
      let log1 := log0 ++ ["Successfully connected to database"]
      let r := Migration.RunMigrations w.lib db
      match r.err with
      | some err =>
        ⟨log1 ++ r.log ++ [Sprintf "Error running migrations: %v" [err.Error]], 1,
          some connStr, some r.db⟩
      | none =>
        ⟨log1 ++ r.log ++ ["Migrations completed successfully"], 0, some connStr,
          some r.db.Close⟩

end CmdMigrate

/-! ## backend/migrations/run_migrations.go -/

namespace Migrations

/-- The function `RunMigrations` of run_migrations.go (lines 57 to 76). -/
def RunMigrations {σ : Type} (w : World σ) (db : DB σ) : RunResult σ :=
  let log := ["Running migrations..."]
  let upFile := "000001_init_schema.up.sql"
  match w.readFile upFile with
  | .error err => ⟨db, log, some (Errorf "could not read migration file: %w" err)⟩
  | .ok content =>
    let r := db.Exec w.engine content
    match r.2 with
    | some err => ⟨r.1, log, some (Errorf "could not execute migration: %w" err)⟩
    | none => ⟨r.1, log, none⟩

/-- Lines 22 to 30 of `main`: the connection string assembled from the environment. -/
def connStr (env : String → Option String) : String :=
  let dbHost := Getenv env "DB_HOST"
  let dbPort := Getenv env "DB_PORT"
  let dbUser := Getenv env "DB_USER"
  let dbPassword := Getenv env "DB_PASSWORD"
  let dbName := Getenv env "DB_NAME"
  Sprintf "host=%s port=%s user=%s password=%s dbname=%s sslmode=disable"
    [dbHost, dbPort, dbUser, dbPassword, dbName]

/-- The function `main` of run_migrations.go. -/
def main {σ : Type} (w : World σ) : Proc σ :=
  match w.dotenvErr with
  | some err => ⟨[Sprintf "Error loading .env file: %v" [err.Error]], 1, none, none⟩
  | none =>
    let connStr := connStr w.env
    match w.sqlOpen connStr with
    | .error err =>
      ⟨[Sprintf "Could not connect to database: %v" [err.Error]], 1, some connStr, none⟩
    | .ok s =>
      let db := (DB.opened s).Ping
      match w.pingErr with
      | some err =>
        ⟨[Sprintf "Could not ping database: %v" [err.Error]], 1, some connStr, some db⟩
      | none =>
        let log1 := ["Successfully connected to database"]
        let r := RunMigrations w db
        match r.err with
        | some err =>
          ⟨log1 ++ r.log ++ [Sprintf "Error running migrations: %v" [err.Error]], 1,
            some connStr, some r.db⟩
        | none =>
          ⟨log1 ++ r.log ++ ["Migrations completed successfully"], 0, some connStr,
            some r.db.Close⟩

end Migrations

/-! ## Wording of the specification -/

/-- The value of an environment variable when it is set and non-empty, the default
otherwise. -/
def valueOrDefault (value : Option String) (dflt : String) : String :=
  match value with
  | some v => if v = "" then dflt else v
  | none => dflt

/-! ## Concrete worlds used as instances -/

/-- Splits a script at each semicolon. -/
def splitStatements : List Char → List (List Char)
  | [] => [[]]
  | c :: cs =>
    if c = ';' then [] :: splitStatements cs
    else
      match splitStatements cs with
      | [] => [[c]]
      | s :: ss => (c :: s) :: ss

/-- Runs the statements of one query message the way PostgreSQL runs a multi-statement
simple query: the statements form one implicit transaction, a `COMMIT` among them makes the
work done so far durable, and a failing statement (here `SELECT 1/0`) aborts the message and
rolls back what is not yet committed.  The state is the list of statements that took
effect. -/
def miniRun : List String → List String → List (List Char) → List String × Option GoError
  | committed, pending, [] => (committed ++ pending, none)
  | committed, pending, stmt :: rest =>
    if stmt = "COMMIT".data then miniRun (committed ++ pending) [] rest
    else if stmt = "SELECT 1/0".data then
      (committed, some (.external "pq: division by zero"))
    else miniRun committed (pending ++ [String.mk stmt]) rest

/-- A small database: the `engine` of a concrete world. -/
def miniPostgres (effects : List String) (script : String) : List String × Option GoError :=
  miniRun effects [] (splitStatements script.data)

/-- A database that runs every `Exec` atomically: a query that fails in `miniPostgres` leaves
no trace at all. -/
def allOrNothing (effects : List String) (script : String) : List String × Option GoError :=
  if (miniPostgres effects script).2 = none then miniPostgres effects script
  else (effects, (miniPostgres effects script).2)

/-- A library run in which every stage before `Up` succeeds and `Up` ends as given. -/
def libWith (up : UpOutcome) : MigrateLib (List String) :=
  { withInstanceErr := none
    getwd := .ok "/app"
    join := fun a b => a ++ "/" ++ b
    newWithDatabaseInstance := fun _ => none
    up := up
    upEffect := fun s => s }

/-- A world with a reachable database, the given migration file content and the given
library run. -/
def worldWith (content : String) (up : UpOutcome) : World (List String) :=
  { dotenvErr := none
    env := fun _ => none
    sqlOpen := fun _ => .ok []
    pingErr := none
    engine := miniPostgres
    readFile := fun _ => .ok content
    lib := libWith up }

/-! ## Formatting lemmas -/

theorem Errorf_Unwrap (format : String) (err : GoError) :
    (Errorf format err).Unwrap = some err := rfl

theorem Errorf_Error (format : String) (err : GoError) :
    (Errorf format err).Error = Sprintf format [err.Error] := rfl

theorem Sprintf_driver (x : String) :
    Sprintf "could not create migration driver: %w" [x]
      = "could not create migration driver: " ++ x := by
  apply String.ext
  simp [Sprintf, sprintfAux]

theorem Sprintf_getwd (x : String) :
    Sprintf "could not get current directory: %w" [x]
      = "could not get current directory: " ++ x := by
  apply String.ext
  simp [Sprintf, sprintfAux]

theorem Sprintf_instance (x : String) :
    Sprintf "could not create migration instance: %w" [x]
      = "could not create migration instance: " ++ x := by
  apply String.ext
  simp [Sprintf, sprintfAux]

theorem Sprintf_run (x : String) :
    Sprintf "could not run migrations: %w" [x] = "could not run migrations: " ++ x := by
  apply String.ext
  simp [Sprintf, sprintfAux]

theorem Sprintf_read (x : String) :
    Sprintf "could not read migration file: %w" [x]
      = "could not read migration file: " ++ x := by
  apply String.ext
  simp [Sprintf, sprintfAux]

theorem Sprintf_exec (x : String) :
    Sprintf "could not execute migration: %w" [x] = "could not execute migration: " ++ x := by
  apply String.ext
  simp [Sprintf, sprintfAux]

theorem Sprintf_connStr (h p u w n : String) :
    Sprintf "host=%s port=%s user=%s password=%s dbname=%s sslmode=disable" [h, p, u, w, n]
      = "host=" ++ h ++ " port=" ++ p ++ " user=" ++ u ++ " password=" ++ w
          ++ " dbname=" ++ n ++ " sslmode=disable" := by
  apply String.ext
  simp [Sprintf, sprintfAux]

/-! ## migration.RunMigrations: results -/

/-- C1: when driver creation, working-directory lookup and migration-instance creation
succeed and `Up` returns `migrate.ErrNoChange`, `migration.RunMigrations` returns a nil
error. -/
theorem runMigrations_noChange_is_success {σ : Type} (lib : MigrateLib σ) (db : DB σ)
    (dir : String)
    (hdriver : lib.withInstanceErr = none)
    (hwd : lib.getwd = .ok dir)
    (hnew : lib.newWithDatabaseInstance (Sprintf "file://%s" [lib.join dir "migrations"]) = none)
    (hup : lib.up.err = some GoError.errNoChange) :
    (Migration.RunMigrations lib db).err = none := by
  simp [Migration.RunMigrations, hdriver, hwd, hnew, hup]

theorem runMigrations_noChange_is_success_witness :
    (Migration.RunMigrations (libWith .noChange) (DB.opened [])).err = none :=
  runMigrations_noChange_is_success (libWith .noChange) (DB.opened []) "/app" rfl rfl rfl rfl

/-- C2, as stated, fails: an `Up` failure while applying version 1 and an `Up` failure while
applying version 2, both with the cause `pq: syntax error`, make `migration.RunMigrations`
return one and the same non-nil error, whose only content is a message and that cause; it
names no version. -/
theorem runMigrations_error_has_no_version :
    (libWith (.failed 1 (.external "pq: syntax error"))).up
        ≠ (libWith (.failed 2 (.external "pq: syntax error"))).up
      ∧ (Migration.RunMigrations (libWith (.failed 1 (.external "pq: syntax error")))
            (DB.opened [])).err
          = (Migration.RunMigrations (libWith (.failed 2 (.external "pq: syntax error")))
              (DB.opened [])).err
      ∧ (Migration.RunMigrations (libWith (.failed 1 (.external "pq: syntax error")))
            (DB.opened [])).err
          = some (.wrapError "could not run migrations: pq: syntax error"
              (.external "pq: syntax error")) := by
  refine ⟨by decide, by decide, by decide⟩

/-- C2, amended: every failing stage of `migration.RunMigrations` (driver creation,
working-directory lookup, migration-instance creation, an `Up` error other than
`migrate.ErrNoChange`) makes it return a non-nil error whose `Unwrap` is exactly the error of
that stage and whose message is a fixed text naming the stage followed by the message of the
cause; it returns nil exactly when no stage failed.  The error holds the cause and no
version. -/
theorem runMigrations_wraps_stage_error {σ : Type} (lib : MigrateLib σ) (db : DB σ) :
    (∀ e, lib.withInstanceErr = some e →
        ∃ r, (Migration.RunMigrations lib db).err = some r ∧ r.Unwrap = some e
          ∧ r.Error = "could not create migration driver: " ++ e.Error)
    ∧ (∀ e, lib.withInstanceErr = none → lib.getwd = .error e →
        ∃ r, (Migration.RunMigrations lib db).err = some r ∧ r.Unwrap = some e
          ∧ r.Error = "could not get current directory: " ++ e.Error)
    ∧ (∀ dir e, lib.withInstanceErr = none → lib.getwd = .ok dir →
        lib.newWithDatabaseInstance (Sprintf "file://%s" [lib.join dir "migrations"]) = some e →
        ∃ r, (Migration.RunMigrations lib db).err = some r ∧ r.Unwrap = some e
          ∧ r.Error = "could not create migration instance: " ++ e.Error)
    ∧ (∀ dir e, lib.withInstanceErr = none → lib.getwd = .ok dir →
        lib.newWithDatabaseInstance (Sprintf "file://%s" [lib.join dir "migrations"]) = none →
        lib.up.err = some e → e ≠ GoError.errNoChange →
        ∃ r, (Migration.RunMigrations lib db).err = some r ∧ r.Unwrap = some e
          ∧ r.Error = "could not run migrations: " ++ e.Error)
    ∧ ((Migration.RunMigrations lib db).err = none ↔
        lib.withInstanceErr = none ∧ ∃ dir, lib.getwd = .ok dir
          ∧ lib.newWithDatabaseInstance (Sprintf "file://%s" [lib.join dir "migrations"]) = none
          ∧ (lib.up.err = none ∨ lib.up.err = some GoError.errNoChange)) := by
  refine ⟨?_, ?_, ?_, ?_, ?_⟩
  · intro e h
    refine ⟨Errorf "could not create migration driver: %w" e, ?_, rfl, ?_⟩
    · simp [Migration.RunMigrations, h]
    · rw [Errorf_Error, Sprintf_driver]
  · intro e h1 h2
    refine ⟨Errorf "could not get current directory: %w" e, ?_, rfl, ?_⟩
    · simp [Migration.RunMigrations, h1, h2]
    · rw [Errorf_Error, Sprintf_getwd]
  · intro dir e h1 h2 h3
    refine ⟨Errorf "could not create migration instance: %w" e, ?_, rfl, ?_⟩
    · simp [Migration.RunMigrations, h1, h2, h3]
    · rw [Errorf_Error, Sprintf_instance]
  · intro dir e h1 h2 h3 h4 h5
    refine ⟨Errorf "could not run migrations: %w" e, ?_, rfl, ?_⟩
    · simp [Migration.RunMigrations, h1, h2, h3, h4, h5]
    · rw [Errorf_Error, Sprintf_run]
  · cases h1 : lib.withInstanceErr with
    | some e => simp [Migration.RunMigrations, h1]
    | none =>
      cases h2 : lib.getwd with
      | error e => simp [Migration.RunMigrations, h1, h2]
      | ok dir =>
        cases h3 : lib.newWithDatabaseInstance (Sprintf "file://%s" [lib.join dir "migrations"]) with
        | some e => simp [Migration.RunMigrations, h1, h2, h3]
        | none =>
          cases h4 : lib.up.err with
          | none => simp [Migration.RunMigrations, h1, h2, h3, h4]
          | some e =>
            by_cases h5 : e = GoError.errNoChange
            · simp [Migration.RunMigrations, h1, h2, h3, h4, h5]
            · simp [Migration.RunMigrations, h1, h2, h3, h4, h5]

theorem runMigrations_wraps_stage_error_witness :
    ∃ r, (Migration.RunMigrations (libWith (.failed 2 (.external "pq: syntax error")))
            (DB.opened [])).err = some r
      ∧ r.Unwrap = some (.external "pq: syntax error")
      ∧ r.Error = "could not run migrations: " ++ (GoError.external "pq: syntax error").Error :=
  (runMigrations_wraps_stage_error (libWith (.failed 2 (.external "pq: syntax error")))
    (DB.opened [])).2.2.2.1 "/app" (.external "pq: syntax error") rfl rfl rfl rfl (by decide)

/-- C3, as stated, fails: a run in which nothing was pending and a run in which `Up` applied
migration 1 hand back the same value (nil) and the same log line from
`migration.RunMigrations`, and the whole process logs the same lines and exits with the same
status. -/
theorem noChange_and_applied_look_alike :
    (libWith .noChange).up ≠ (libWith (.applied 1 [])).up
      ∧ (Migration.RunMigrations (libWith .noChange) (DB.opened [])).err
          = (Migration.RunMigrations (libWith (.applied 1 [])) (DB.opened [])).err
      ∧ (Migration.RunMigrations (libWith .noChange) (DB.opened [])).log
          = (Migration.RunMigrations (libWith (.applied 1 [])) (DB.opened [])).log
      ∧ (CmdMigrate.main (worldWith "" .noChange)).log
          = (CmdMigrate.main (worldWith "" (.applied 1 []))).log
      ∧ (CmdMigrate.main (worldWith "" .noChange)).exitCode
          = (CmdMigrate.main (worldWith "" (.applied 1 []))).exitCode := by
  refine ⟨by decide, by decide, by decide, by decide, by decide⟩

/-- C3, amended: when the stages before `Up` succeed, `migration.RunMigrations` hands back
the same outcome whether nothing was pending or migrations were applied, namely a nil error
and the single log line `Database migrations completed successfully`; both differ only from
a failed `Up`, which gives a non-nil error and no log line. -/
theorem runMigrations_success_outcome_is_uniform {σ : Type} (lib : MigrateLib σ) (db : DB σ)
    (dir : String)
    (hdriver : lib.withInstanceErr = none)
    (hwd : lib.getwd = .ok dir)
    (hnew : lib.newWithDatabaseInstance (Sprintf "file://%s" [lib.join dir "migrations"]) = none) :
    ((lib.up = .noChange ∨ ∃ first more, lib.up = .applied first more) →
        (Migration.RunMigrations lib db).err = none
          ∧ (Migration.RunMigrations lib db).log
              = ["Database migrations completed successfully"])
    ∧ (∀ version cause, lib.up = .failed version cause → cause ≠ GoError.errNoChange →
        (Migration.RunMigrations lib db).err ≠ none
          ∧ (Migration.RunMigrations lib db).log = []) := by
  constructor
  · rintro (h | ⟨first, more, h⟩)
    · simp [Migration.RunMigrations, hdriver, hwd, hnew, h, UpOutcome.err]
    · simp [Migration.RunMigrations, hdriver, hwd, hnew, h, UpOutcome.err]
  · intro version cause h hc
    simp [Migration.RunMigrations, hdriver, hwd, hnew, h, UpOutcome.err, hc]

theorem runMigrations_success_outcome_is_uniform_witness :
    (Migration.RunMigrations (libWith (.applied 1 [2])) (DB.opened [])).err = none
      ∧ (Migration.RunMigrations (libWith (.applied 1 [2])) (DB.opened [])).log
          = ["Database migrations completed successfully"] :=
  (runMigrations_success_outcome_is_uniform (libWith (.applied 1 [2])) (DB.opened []) "/app"
    rfl rfl rfl).1 (Or.inr ⟨1, [2], rfl⟩)

/-! ## The single-file runner -/

/-- C4, as stated, fails: with the migration file `INSERT INTO t VALUES (1)` the first call
of the single-file `RunMigrations` succeeds, and the second call on the same handle issues
the `Exec` again and changes the database (the row is inserted a second time). -/
theorem second_run_executes_again :
    (Migrations.RunMigrations (worldWith "INSERT INTO t VALUES (1)" .noChange)
        (DB.opened [])).err = none
      ∧ (Migrations.RunMigrations (worldWith "INSERT INTO t VALUES (1)" .noChange)
          (Migrations.RunMigrations (worldWith "INSERT INTO t VALUES (1)" .noChange)
            (DB.opened [])).db).db.calls
          = [DbCall.Exec "INSERT INTO t VALUES (1)", DbCall.Exec "INSERT INTO t VALUES (1)"]
      ∧ (Migrations.RunMigrations (worldWith "INSERT INTO t VALUES (1)" .noChange)
          (DB.opened [])).db.state = ["INSERT INTO t VALUES (1)"]
      ∧ (Migrations.RunMigrations (worldWith "INSERT INTO t VALUES (1)" .noChange)
          (Migrations.RunMigrations (worldWith "INSERT INTO t VALUES (1)" .noChange)
            (DB.opened [])).db).db.state
          = ["INSERT INTO t VALUES (1)", "INSERT INTO t VALUES (1)"] := by
  refine ⟨by decide, by decide, by decide, by decide⟩

/-- C4, amended: when the single-file `RunMigrations` is called twice in succession on the
same open handle with the same migration file and the first call succeeds, the second call
reads the file again and issues exactly one more `Exec` with the content of the file; the
database is left as that `Exec` leaves it, and the call fails exactly when that `Exec`
fails. -/
theorem second_run_repeats_the_exec {σ : Type} (w : World σ) (db : DB σ) (content : String)
    (hread : w.readFile "000001_init_schema.up.sql" = .ok content)
    (hopen : db.closed = false)
    (_hfirst : (Migrations.RunMigrations w db).err = none) :
    (Migrations.RunMigrations w (Migrations.RunMigrations w db).db).db.calls
        = (Migrations.RunMigrations w db).db.calls ++ [DbCall.Exec content]
      ∧ (Migrations.RunMigrations w (Migrations.RunMigrations w db).db).db.state
        = (w.engine (Migrations.RunMigrations w db).db.state content).1
      ∧ ((Migrations.RunMigrations w (Migrations.RunMigrations w db).db).err = none ↔
          (w.engine (Migrations.RunMigrations w db).db.state content).2 = none) := by
  have h1 : (Migrations.RunMigrations w db).db.closed = false := by
    simp only [Migrations.RunMigrations, hread, DB.Exec, hopen]
    cases (w.engine db.state content).2 <;> simp
  refine ⟨?_, ?_, ?_⟩
  · generalize Migrations.RunMigrations w db = r at h1 ⊢
    simp only [Migrations.RunMigrations, hread, DB.Exec, h1]
    cases (w.engine r.db.state content).2 <;> simp
  · generalize Migrations.RunMigrations w db = r at h1 ⊢
    simp only [Migrations.RunMigrations, hread, DB.Exec, h1]
    cases (w.engine r.db.state content).2 <;> simp
  · generalize Migrations.RunMigrations w db = r at h1 ⊢
    simp only [Migrations.RunMigrations, hread, DB.Exec, h1]
    cases (w.engine r.db.state content).2 <;> simp

theorem second_run_repeats_the_exec_witness :
    (Migrations.RunMigrations (worldWith "INSERT INTO t VALUES (1)" .noChange)
        (Migrations.RunMigrations (worldWith "INSERT INTO t VALUES (1)" .noChange)
          (DB.opened [])).db).db.calls
      = (Migrations.RunMigrations (worldWith "INSERT INTO t VALUES (1)" .noChange)
          (DB.opened [])).db.calls ++ [DbCall.Exec "INSERT INTO t VALUES (1)"] :=
  (second_run_repeats_the_exec (worldWith "INSERT INTO t VALUES (1)" .noChange) (DB.opened [])
    "INSERT INTO t VALUES (1)" rfl rfl (by decide)).1

/-- C7, as stated, fails: with the migration file `CREATE TABLE a;COMMIT;SELECT 1/0` the
single `Exec` fails, `RunMigrations` returns an error, and yet the first statement has taken
effect while the last has not. -/
theorem failed_run_can_leave_statements_applied :
    (Migrations.RunMigrations (worldWith "CREATE TABLE a;COMMIT;SELECT 1/0" .noChange)
        (DB.opened [])).err
        = some (.wrapError "could not execute migration: pq: division by zero"
            (.external "pq: division by zero"))
      ∧ (Migrations.RunMigrations (worldWith "CREATE TABLE a;COMMIT;SELECT 1/0" .noChange)
          (DB.opened [])).db.state = ["CREATE TABLE a"]
      ∧ (Migrations.RunMigrations (worldWith "CREATE TABLE a;COMMIT;SELECT 1/0" .noChange)
          (DB.opened [])).db.calls = [DbCall.Exec "CREATE TABLE a;COMMIT;SELECT 1/0"] := by
  refine ⟨by decide, by decide, by decide⟩

/-- C7, amended: the single-file `RunMigrations` opens no transaction of its own; on an open
handle it passes the whole content of the file to one `Exec` call, the only call it makes,
and leaves the database exactly as that call leaves it.  So when the database runs one
`Exec` atomically (a failing `Exec` changes nothing), a failing `RunMigrations` changes
nothing either. -/
theorem runMigrations_is_one_exec {σ : Type} (w : World σ) (db : DB σ) (content : String)
    (hread : w.readFile "000001_init_schema.up.sql" = .ok content)
    (hopen : db.closed = false) :
    (Migrations.RunMigrations w db).db.calls = db.calls ++ [DbCall.Exec content]
      ∧ (Migrations.RunMigrations w db).db.state = (w.engine db.state content).1
      ∧ ((∀ s q, (w.engine s q).2 ≠ none → (w.engine s q).1 = s) →
          (Migrations.RunMigrations w db).err ≠ none →
          (Migrations.RunMigrations w db).db.state = db.state) := by
  refine ⟨?_, ?_, ?_⟩
  · simp only [Migrations.RunMigrations, hread, DB.Exec, hopen]
    cases (w.engine db.state content).2 <;> simp
  · simp only [Migrations.RunMigrations, hread, DB.Exec, hopen]
    cases (w.engine db.state content).2 <;> simp
  · intro hatomic
    have hq := hatomic db.state content
    simp only [Migrations.RunMigrations, hread, DB.Exec, hopen]
    cases h : (w.engine db.state content).2 with
    | none => simp
    | some e =>
      intro _
      simp only [Bool.false_eq_true, if_false]
      exact hq (by simp [h])

theorem runMigrations_is_one_exec_witness :
    (Migrations.RunMigrations (worldWith "CREATE TABLE a;COMMIT;SELECT 1/0" .noChange)
        (DB.opened [])).db.calls
      = (DB.opened ([] : List String)).calls
          ++ [DbCall.Exec "CREATE TABLE a;COMMIT;SELECT 1/0"]
    ∧ (Migrations.RunMigrations
        { worldWith "CREATE TABLE a;COMMIT;SELECT 1/0" .noChange with engine := allOrNothing }
        (DB.opened [])).db.state = (DB.opened ([] : List String)).state :=
  ⟨(runMigrations_is_one_exec (worldWith "CREATE TABLE a;COMMIT;SELECT 1/0" .noChange)
      (DB.opened []) "CREATE TABLE a;COMMIT;SELECT 1/0" rfl rfl).1,
    (runMigrations_is_one_exec
      { worldWith "CREATE TABLE a;COMMIT;SELECT 1/0" .noChange with engine := allOrNothing }
      (DB.opened []) "CREATE TABLE a;COMMIT;SELECT 1/0" rfl rfl).2.2
      (by
        intro s q h
        show (allOrNothing s q).1 = s
        have h2 : (allOrNothing s q).2 ≠ none := h
        unfold allOrNothing at h2 ⊢
        by_cases hc : (miniPostgres s q).2 = none
        · rw [if_pos hc] at h2
          exact absurd hc h2
        · rw [if_neg hc])
      (by decide)⟩

/-- C9: when reading `000001_init_schema.up.sql` fails, the single-file `RunMigrations`
returns a non-nil error whose `Unwrap` is the read error and makes no call on the database
handle, which it hands back untouched; when the read succeeds it makes exactly one call on
the handle, an `Exec` whose argument is the content of the file: the handle it hands back is
the one that `Exec` leaves (so on an open handle the database has run the content), and it
returns nil when that `Exec` returns nil and otherwise the error of that `Exec`, wrapped. -/
theorem runMigrations_read_then_exec {σ : Type} (w : World σ) (db : DB σ) :
    (∀ e, w.readFile "000001_init_schema.up.sql" = .error e →
        (∃ r, (Migrations.RunMigrations w db).err = some r ∧ r.Unwrap = some e
          ∧ r.Error = "could not read migration file: " ++ e.Error)
        ∧ (Migrations.RunMigrations w db).db.calls = db.calls
        ∧ (Migrations.RunMigrations w db).db.state = db.state
        ∧ (Migrations.RunMigrations w db).db.closed = db.closed)
    ∧ (∀ content, w.readFile "000001_init_schema.up.sql" = .ok content →
        (Migrations.RunMigrations w db).db.calls = db.calls ++ [DbCall.Exec content]
          ∧ (Migrations.RunMigrations w db).db = (db.Exec w.engine content).1
          ∧ (Migrations.RunMigrations w db).err
              = (db.Exec w.engine content).2.map (Errorf "could not execute migration: %w")
          ∧ (∀ e, (db.Exec w.engine content).2 = some e →
              ∃ r, (Migrations.RunMigrations w db).err = some r ∧ r.Unwrap = some e
                ∧ r.Error = "could not execute migration: " ++ e.Error)
          ∧ (db.closed = false →
              (Migrations.RunMigrations w db).db.state = (w.engine db.state content).1
                ∧ ((Migrations.RunMigrations w db).err = none ↔
                    (w.engine db.state content).2 = none))) := by
  constructor
  · intro e h
    refine ⟨⟨Errorf "could not read migration file: %w" e, ?_, rfl, ?_⟩, ?_, ?_, ?_⟩
    · simp [Migrations.RunMigrations, h]
    · rw [Errorf_Error, Sprintf_read]
    · simp [Migrations.RunMigrations, h]
    · simp [Migrations.RunMigrations, h]
    · simp [Migrations.RunMigrations, h]
  · intro content h
    have hdb : (Migrations.RunMigrations w db).db = (db.Exec w.engine content).1 := by
      simp only [Migrations.RunMigrations, h]
      cases (db.Exec w.engine content).2 <;> rfl
    have herr : (Migrations.RunMigrations w db).err
        = (db.Exec w.engine content).2.map (Errorf "could not execute migration: %w") := by
      simp only [Migrations.RunMigrations, h]
      cases (db.Exec w.engine content).2 <;> rfl
    refine ⟨?_, hdb, herr, ?_, ?_⟩
    · rw [hdb]
      unfold DB.Exec
      by_cases hc : db.closed = true
      · simp [hc]
      · simp [hc]
    · intro e he
      refine ⟨Errorf "could not execute migration: %w" e, ?_, rfl, ?_⟩
      · rw [herr, he]
        rfl
      · rw [Errorf_Error, Sprintf_exec]
    · intro hopen
      constructor
      · rw [hdb]
        simp [DB.Exec, hopen]
      · rw [herr]
        simp [DB.Exec, hopen]

theorem runMigrations_read_then_exec_witness :
    ((Migrations.RunMigrations (worldWith "CREATE TABLE a" .noChange) (DB.opened [])).db.calls
        = (DB.opened ([] : List String)).calls ++ [DbCall.Exec "CREATE TABLE a"]
      ∧ (Migrations.RunMigrations (worldWith "CREATE TABLE a" .noChange) (DB.opened [])).db
        = ((DB.opened ([] : List String)).Exec miniPostgres "CREATE TABLE a").1)
    ∧ (Migrations.RunMigrations
        { worldWith "" .noChange with
          readFile := fun _ => .error (.external "open 000001_init_schema.up.sql: no such file") }
        (DB.opened [])).db.calls = (DB.opened ([] : List String)).calls
    ∧ (∃ r, (Migrations.RunMigrations (worldWith "SELECT 1/0" .noChange) (DB.opened [])).err
          = some r ∧ r.Unwrap = some (.external "pq: division by zero")
        ∧ r.Error = "could not execute migration: "
            ++ (GoError.external "pq: division by zero").Error) :=
  ⟨⟨((runMigrations_read_then_exec (worldWith "CREATE TABLE a" .noChange) (DB.opened [])).2
        "CREATE TABLE a" rfl).1,
      ((runMigrations_read_then_exec (worldWith "CREATE TABLE a" .noChange) (DB.opened [])).2
        "CREATE TABLE a" rfl).2.1⟩,
    ((runMigrations_read_then_exec
      { worldWith "" .noChange with
        readFile := fun _ => .error (.external "open 000001_init_schema.up.sql: no such file") }
      (DB.opened [])).1 (.external "open 000001_init_schema.up.sql: no such file") rfl).2.1,
    ((runMigrations_read_then_exec (worldWith "SELECT 1/0" .noChange) (DB.opened [])).2
      "SELECT 1/0" rfl).2.2.2.1 (.external "pq: division by zero") (by decide)⟩

/-! ## The connection handle -/

/-- C8: neither runner closes the handle it is given.  On every path `migration.RunMigrations`
and the single-file `RunMigrations` hand the handle back with the same open or closed status
it came with, and `Close` is not among the calls they added; the handle is closed by the
deferred `db.Close()` of `main`, which is the last call on it when `main` returns. -/
theorem runners_leave_handle_open (σ : Type) :
    (∀ (lib : MigrateLib σ) (db : DB σ),
        (Migration.RunMigrations lib db).db.closed = db.closed
          ∧ ∃ added, (Migration.RunMigrations lib db).db.calls = db.calls ++ added
              ∧ DbCall.Close ∉ added)
    ∧ (∀ (w : World σ) (db : DB σ),
        (Migrations.RunMigrations w db).db.closed = db.closed
          ∧ ∃ added, (Migrations.RunMigrations w db).db.calls = db.calls ++ added
              ∧ DbCall.Close ∉ added)
    ∧ (∀ w : World σ, (CmdMigrate.main w).exitCode = 0 →
        ∃ d, (CmdMigrate.main w).db = some d ∧ d.closed = true
          ∧ d.calls.getLast? = some DbCall.Close)
    ∧ (∀ w : World σ, (Migrations.main w).exitCode = 0 →
        ∃ d, (Migrations.main w).db = some d ∧ d.closed = true
          ∧ d.calls.getLast? = some DbCall.Close) := by
  refine ⟨?_, ?_, ?_, ?_⟩
  · intro lib db
    cases h1 : lib.withInstanceErr with
    | some e =>
      exact ⟨by simp [Migration.RunMigrations, h1],
        [DbCall.WithInstance], by simp [Migration.RunMigrations, h1], by simp⟩
    | none =>
      cases h2 : lib.getwd with
      | error e =>
        exact ⟨by simp [Migration.RunMigrations, h1, h2],
          [DbCall.WithInstance], by simp [Migration.RunMigrations, h1, h2], by simp⟩
      | ok dir =>
        cases h3 : lib.newWithDatabaseInstance (Sprintf "file://%s" [lib.join dir "migrations"]) with
        | some e =>
          exact ⟨by simp [Migration.RunMigrations, h1, h2, h3],
            [DbCall.WithInstance], by simp [Migration.RunMigrations, h1, h2, h3], by simp⟩
        | none =>
          cases h4 : lib.up.err with
          | none =>
            exact ⟨by simp [Migration.RunMigrations, h1, h2, h3, h4],
              [DbCall.WithInstance, DbCall.Up],
              by simp [Migration.RunMigrations, h1, h2, h3, h4], by simp⟩
          | some e =>
            by_cases h5 : e = GoError.errNoChange
            · exact ⟨by simp [Migration.RunMigrations, h1, h2, h3, h4, h5],
                [DbCall.WithInstance, DbCall.Up],
                by simp [Migration.RunMigrations, h1, h2, h3, h4, h5], by simp⟩
            · exact ⟨by simp [Migration.RunMigrations, h1, h2, h3, h4, h5],
                [DbCall.WithInstance, DbCall.Up],
                by simp [Migration.RunMigrations, h1, h2, h3, h4, h5], by simp⟩
  · intro w db
    cases h1 : w.readFile "000001_init_schema.up.sql" with
    | error e =>
      exact ⟨by simp [Migrations.RunMigrations, h1], [],
        by simp [Migrations.RunMigrations, h1], by simp⟩
    | ok content =>
      by_cases hc : db.closed = true
      · exact ⟨by simp [Migrations.RunMigrations, h1, DB.Exec, hc],
          [DbCall.Exec content], by simp [Migrations.RunMigrations, h1, DB.Exec, hc], by simp⟩
      · cases h2 : (w.engine db.state content).2 with
        | none =>
          exact ⟨by simp [Migrations.RunMigrations, h1, DB.Exec, hc, h2],
            [DbCall.Exec content],
            by simp [Migrations.RunMigrations, h1, DB.Exec, hc, h2], by simp⟩
        | some e =>
          exact ⟨by simp [Migrations.RunMigrations, h1, DB.Exec, hc, h2],
            [DbCall.Exec content],
            by simp [Migrations.RunMigrations, h1, DB.Exec, hc, h2], by simp⟩
  · intro w
    cases h1 : w.sqlOpen (CmdMigrate.connStr w.env) with
    | error e => simp [CmdMigrate.main, h1]
    | ok s =>
      cases h2 : w.pingErr with
      | some e => simp [CmdMigrate.main, h1, h2]
      | none =>
        cases h3 : (Migration.RunMigrations w.lib (DB.opened s).Ping).err with
        | some e => simp [CmdMigrate.main, h1, h2, h3]
        | none => simp [CmdMigrate.main, h1, h2, h3, DB.Close]
  · intro w
    cases h0 : w.dotenvErr with
    | some e => simp [Migrations.main, h0]
    | none =>
      cases h1 : w.sqlOpen (Migrations.connStr w.env) with
      | error e => simp [Migrations.main, h0, h1]
      | ok s =>
        cases h2 : w.pingErr with
        | some e => simp [Migrations.main, h0, h1, h2]
        | none =>
          cases h3 : (Migrations.RunMigrations w (DB.opened s).Ping).err with
          | some e => simp [Migrations.main, h0, h1, h2, h3]
          | none => simp [Migrations.main, h0, h1, h2, h3, DB.Close]

theorem runners_leave_handle_open_witness :
    ∃ d, (CmdMigrate.main (worldWith "" (.applied 1 []))).db = some d ∧ d.closed = true
      ∧ d.calls.getLast? = some DbCall.Close :=
  (runners_leave_handle_open (List String)).2.2.1 (worldWith "" (.applied 1 [])) (by decide)

/-! ## Connection strings -/

/-- C5: for every environment, the connection string `main` of cmd/migrate assembles and
passes to `sql.Open` is `host=H port=P user=U password=W dbname=N sslmode=disable`, where H,
P, U and N are the values of DB_HOST, DB_PORT, DB_USER and DB_NAME when set and non-empty and
otherwise `localhost`, `5432`, `postgres` and `habitrack`, and W is the value of DB_PASSWORD
as it is (empty when unset). -/
theorem cmdMigrate_connStr_defaults {σ : Type} (w : World σ) :
    (CmdMigrate.main w).connStr
      = some ("host=" ++ valueOrDefault (w.env "DB_HOST") "localhost"
          ++ " port=" ++ valueOrDefault (w.env "DB_PORT") "5432"
          ++ " user=" ++ valueOrDefault (w.env "DB_USER") "postgres"
          ++ " password=" ++ (w.env "DB_PASSWORD").getD ""
          ++ " dbname=" ++ valueOrDefault (w.env "DB_NAME") "habitrack"
          ++ " sslmode=disable") := by
  have hv : ∀ (v : Option String) (d : String),
      (if v.getD "" = "" then d else v.getD "") = valueOrDefault v d := by
    intro v d
    cases v with
    | none => simp [valueOrDefault]
    | some x => simp [valueOrDefault]
  have hc : CmdMigrate.connStr w.env
      = "host=" ++ valueOrDefault (w.env "DB_HOST") "localhost"
          ++ " port=" ++ valueOrDefault (w.env "DB_PORT") "5432"
          ++ " user=" ++ valueOrDefault (w.env "DB_USER") "postgres"
          ++ " password=" ++ (w.env "DB_PASSWORD").getD ""
          ++ " dbname=" ++ valueOrDefault (w.env "DB_NAME") "habitrack"
          ++ " sslmode=disable" := by
    simp only [CmdMigrate.connStr, Getenv, Sprintf_connStr, hv]
  rw [← hc]
  cases h1 : w.sqlOpen (CmdMigrate.connStr w.env) with
  | error e => simp [CmdMigrate.main, h1]
  | ok s =>
    cases h2 : w.pingErr with
    | some e => simp [CmdMigrate.main, h1, h2]
    | none =>
      cases h3 : (Migration.RunMigrations w.lib (DB.opened s).Ping).err with
      | some e => simp [CmdMigrate.main, h1, h2, h3]
      | none => simp [CmdMigrate.main, h1, h2, h3]

theorem valueOrDefault_length (v : Option String) (d : String) (hd : d ≠ "") :
    (v.getD "").length ≤ (valueOrDefault v d).length
      ∧ (v.getD "" = "" → (v.getD "").length < (valueOrDefault v d).length) := by
  have hpos : 0 < d.length := by
    rcases d with ⟨l⟩
    cases l with
    | nil => exact absurd rfl hd
    | cons a t => simp [String.length]
  cases v with
  | none => simpa [valueOrDefault] using hpos
  | some x =>
    by_cases hx : x = ""
    · subst hx
      simpa [valueOrDefault] using hpos
    · simp [valueOrDefault, hx]

/-- C10: for every environment in which DB_HOST, DB_PORT, DB_USER and DB_NAME are all
non-empty the two entry points assemble the same connection string; the strings differ
exactly when one of the four is empty, and then cmd/migrate has the default in that field
where the single-file entry point has the empty value. -/
theorem entry_points_connStr_agree (env : String → Option String) :
    (Getenv env "DB_HOST" ≠ "" → Getenv env "DB_PORT" ≠ "" → Getenv env "DB_USER" ≠ "" →
        Getenv env "DB_NAME" ≠ "" → CmdMigrate.connStr env = Migrations.connStr env)
    ∧ (CmdMigrate.connStr env ≠ Migrations.connStr env ↔
        Getenv env "DB_HOST" = "" ∨ Getenv env "DB_PORT" = "" ∨ Getenv env "DB_USER" = ""
          ∨ Getenv env "DB_NAME" = "")
    ∧ CmdMigrate.connStr env
        = "host=" ++ valueOrDefault (env "DB_HOST") "localhost"
          ++ " port=" ++ valueOrDefault (env "DB_PORT") "5432"
          ++ " user=" ++ valueOrDefault (env "DB_USER") "postgres"
          ++ " password=" ++ Getenv env "DB_PASSWORD"
          ++ " dbname=" ++ valueOrDefault (env "DB_NAME") "habitrack"
          ++ " sslmode=disable"
    ∧ Migrations.connStr env
        = "host=" ++ Getenv env "DB_HOST" ++ " port=" ++ Getenv env "DB_PORT"
          ++ " user=" ++ Getenv env "DB_USER" ++ " password=" ++ Getenv env "DB_PASSWORD"
          ++ " dbname=" ++ Getenv env "DB_NAME" ++ " sslmode=disable" := by
  have hv : ∀ (v : Option String) (d : String),
      (if v.getD "" = "" then d else v.getD "") = valueOrDefault v d := by
    intro v d
    cases v with
    | none => simp [valueOrDefault]
    | some x => simp [valueOrDefault]
  have hagree : Getenv env "DB_HOST" ≠ "" → Getenv env "DB_PORT" ≠ "" →
      Getenv env "DB_USER" ≠ "" → Getenv env "DB_NAME" ≠ "" →
      CmdMigrate.connStr env = Migrations.connStr env := by
    intro h1 h2 h3 h4
    simp only [CmdMigrate.connStr, Migrations.connStr, if_neg h1, if_neg h2, if_neg h3, if_neg h4]
  have hcmd : CmdMigrate.connStr env
      = "host=" ++ valueOrDefault (env "DB_HOST") "localhost"
          ++ " port=" ++ valueOrDefault (env "DB_PORT") "5432"
          ++ " user=" ++ valueOrDefault (env "DB_USER") "postgres"
          ++ " password=" ++ Getenv env "DB_PASSWORD"
          ++ " dbname=" ++ valueOrDefault (env "DB_NAME") "habitrack"
          ++ " sslmode=disable" := by
    simp only [CmdMigrate.connStr, Getenv, Sprintf_connStr, hv]
  have hraw : Migrations.connStr env
      = "host=" ++ Getenv env "DB_HOST" ++ " port=" ++ Getenv env "DB_PORT"
          ++ " user=" ++ Getenv env "DB_USER" ++ " password=" ++ Getenv env "DB_PASSWORD"
          ++ " dbname=" ++ Getenv env "DB_NAME" ++ " sslmode=disable" := by
    simp only [Migrations.connStr, Sprintf_connStr]
  refine ⟨hagree, ⟨?_, ?_⟩, hcmd, hraw⟩
  · intro hne
    by_contra hall
    simp only [not_or] at hall
    exact hne (hagree hall.1 hall.2.1 hall.2.2.1 hall.2.2.2)
  · intro h heq
    rw [hcmd, hraw] at heq
    have hl := congrArg String.length heq
    simp only [String.length_append] at hl
    have a1 := valueOrDefault_length (env "DB_HOST") "localhost" (by decide)
    have a2 := valueOrDefault_length (env "DB_PORT") "5432" (by decide)
    have a3 := valueOrDefault_length (env "DB_USER") "postgres" (by decide)
    have a4 := valueOrDefault_length (env "DB_NAME") "habitrack" (by decide)
    simp only [Getenv] at h hl
    rcases h with h | h | h | h
    · have := a1.2 h; omega
    · have := a2.2 h; omega
    · have := a3.2 h; omega
    · have := a4.2 h; omega

theorem entry_points_connStr_agree_witness :
    CmdMigrate.connStr (fun k => if k = "DB_PASSWORD" then none else some "x")
      = Migrations.connStr (fun k => if k = "DB_PASSWORD" then none else some "x") :=
  (entry_points_connStr_agree (fun k => if k = "DB_PASSWORD" then none else some "x")).1
    (by decide) (by decide) (by decide) (by decide)

/-! ## Exit behaviour of the entry points -/

theorem Sprintf_fatal (x : String) :
    Sprintf "Error running migrations: %v" [x] = "Error running migrations: " ++ x := by
  apply String.ext
  simp [Sprintf, sprintfAux]

theorem fatal_line_ne_success (x : String) :
    ¬ "Migrations completed successfully" = Sprintf "Error running migrations: %v" [x] := by
  intro h
  have := congrArg String.data h
  simp [Sprintf, sprintfAux] at this

theorem warning_line_ne_success (x : String) :
    ¬ "Migrations completed successfully" = Sprintf "Warning: Error loading .env file: %v" [x] := by
  intro h
  have := congrArg String.data h
  simp [Sprintf, sprintfAux] at this

theorem migration_log_no_success {σ : Type} (lib : MigrateLib σ) (db : DB σ) :
    "Migrations completed successfully" ∉ (Migration.RunMigrations lib db).log := by
  cases h1 : lib.withInstanceErr with
  | some e => simp [Migration.RunMigrations, h1]
  | none =>
    cases h2 : lib.getwd with
    | error e => simp [Migration.RunMigrations, h1, h2]
    | ok dir =>
      cases h3 : lib.newWithDatabaseInstance (Sprintf "file://%s" [lib.join dir "migrations"]) with
      | some e => simp [Migration.RunMigrations, h1, h2, h3]
      | none =>
        cases h4 : lib.up.err with
        | none => simp [Migration.RunMigrations, h1, h2, h3, h4]
        | some e =>
          by_cases h5 : e = GoError.errNoChange
          · simp [Migration.RunMigrations, h1, h2, h3, h4, h5]
          · simp [Migration.RunMigrations, h1, h2, h3, h4, h5]

theorem migrations_log {σ : Type} (w : World σ) (db : DB σ) :
    (Migrations.RunMigrations w db).log = ["Running migrations..."] := by
  cases h1 : w.readFile "000001_init_schema.up.sql" with
  | error e => simp [Migrations.RunMigrations, h1]
  | ok content =>
    cases h2 : (DB.Exec w.engine db content).2 with
    | none => simp [Migrations.RunMigrations, h1, h2]
    | some e => simp [Migrations.RunMigrations, h1, h2]

/-- C6: in both entry points, once the connection is open and pinged (and, in the
single-file entry point, the .env file loaded), whatever `RunMigrations` returns: on a
non-nil error the process logs `Error running migrations: ` followed by the error as its
last line, exits with status 1 and never logs `Migrations completed successfully`; on nil it
logs `Migrations completed successfully` as its last line and ends with status 0 by
returning from `main`, the deferred `Close` having run. -/
theorem entry_points_report_result {σ : Type} (w : World σ) (s : σ) :
    (w.sqlOpen (CmdMigrate.connStr w.env) = .ok s → w.pingErr = none →
      (∀ e, (Migration.RunMigrations w.lib (DB.opened s).Ping).err = some e →
          (CmdMigrate.main w).exitCode = 1
            ∧ (CmdMigrate.main w).log.getLast? = some ("Error running migrations: " ++ e.Error)
            ∧ "Migrations completed successfully" ∉ (CmdMigrate.main w).log)
      ∧ ((Migration.RunMigrations w.lib (DB.opened s).Ping).err = none →
          (CmdMigrate.main w).exitCode = 0
            ∧ (CmdMigrate.main w).log.getLast? = some "Migrations completed successfully"
            ∧ (CmdMigrate.main w).db
                = some (Migration.RunMigrations w.lib (DB.opened s).Ping).db.Close))
    ∧ (w.dotenvErr = none → w.sqlOpen (Migrations.connStr w.env) = .ok s → w.pingErr = none →
      (∀ e, (Migrations.RunMigrations w (DB.opened s).Ping).err = some e →
          (Migrations.main w).exitCode = 1
            ∧ (Migrations.main w).log.getLast? = some ("Error running migrations: " ++ e.Error)
            ∧ "Migrations completed successfully" ∉ (Migrations.main w).log)
      ∧ ((Migrations.RunMigrations w (DB.opened s).Ping).err = none →
          (Migrations.main w).exitCode = 0
            ∧ (Migrations.main w).log.getLast? = some "Migrations completed successfully"
            ∧ (Migrations.main w).db
                = some (Migrations.RunMigrations w (DB.opened s).Ping).db.Close)) := by
  constructor
  · intro h1 h2
    constructor
    · intro e h3
      have hlog := migration_log_no_success w.lib (DB.opened s).Ping
      refine ⟨by simp [CmdMigrate.main, h1, h2, h3], ?_, ?_⟩
      · simp only [CmdMigrate.main, h1, h2, h3, Sprintf_fatal]
        rw [List.getLast?_append]
        simp
      · cases h0 : w.dotenvErr with
        | none =>
          simp [CmdMigrate.main, h1, h2, h3, h0, hlog, fatal_line_ne_success]
        | some e0 =>
          simp [CmdMigrate.main, h1, h2, h3, h0, hlog, fatal_line_ne_success,
            warning_line_ne_success]
    · intro h3
      refine ⟨by simp [CmdMigrate.main, h1, h2, h3], ?_, by simp [CmdMigrate.main, h1, h2, h3]⟩
      simp only [CmdMigrate.main, h1, h2, h3]
      rw [List.getLast?_append]
      simp
  · intro h0 h1 h2
    constructor
    · intro e h3
      have hlog := migrations_log w (DB.opened s).Ping
      refine ⟨by simp [Migrations.main, h0, h1, h2, h3], ?_, ?_⟩
      · simp only [Migrations.main, h0, h1, h2, h3, Sprintf_fatal]
        rw [List.getLast?_append]
        simp
      · simp [Migrations.main, h0, h1, h2, h3, hlog, fatal_line_ne_success]
    · intro h3
      refine ⟨by simp [Migrations.main, h0, h1, h2, h3], ?_,
        by simp [Migrations.main, h0, h1, h2, h3]⟩
      simp only [Migrations.main, h0, h1, h2, h3]
      rw [List.getLast?_append]
      simp

theorem entry_points_report_result_witness :
    ((CmdMigrate.main (worldWith "" (.failed 2 (.external "pq: syntax error")))).exitCode = 1
      ∧ (CmdMigrate.main (worldWith "" (.failed 2 (.external "pq: syntax error")))).log.getLast?
          = some ("Error running migrations: "
              ++ (GoError.wrapError "could not run migrations: pq: syntax error"
                    (.external "pq: syntax error")).Error)
      ∧ "Migrations completed successfully"
          ∉ (CmdMigrate.main (worldWith "" (.failed 2 (.external "pq: syntax error")))).log)
    ∧ ((Migrations.main (worldWith "CREATE TABLE a" .noChange)).exitCode = 0
      ∧ (Migrations.main (worldWith "CREATE TABLE a" .noChange)).log.getLast?
          = some "Migrations completed successfully"
      ∧ (Migrations.main (worldWith "CREATE TABLE a" .noChange)).db
          = some (Migrations.RunMigrations (worldWith "CREATE TABLE a" .noChange)
              (DB.opened []).Ping).db.Close) :=
  ⟨(entry_points_report_result (worldWith "" (.failed 2 (.external "pq: syntax error"))) []).1
      rfl rfl |>.1 _ (by decide),
    (entry_points_report_result (worldWith "CREATE TABLE a" .noChange) []).2
      rfl rfl rfl |>.2 (by decide)⟩

end Habitrack
